import Mathlib

/-!
Verification of suna-lite against its specification.

This file gives a shallow embedding, in Lean 4, of the parts of the
suna-lite code base that the specification talks about:

* `src/utils/helpers.py` — `is_safe_path`, `clean_filename`;
* `src/agent/tools/base_tool.py` — `ToolResponse`, `BaseTool.safe_execute`,
  `ToolRegistry.execute_tool`;
* `src/agent/tools/shell_tool.py` — `ShellTool._is_command_safe`;
* `src/agent/tools/file_tool.py` — `FileTool._read_file`, `FileTool._write_file`;
* `src/agent/tools/browser_tool.py` — the simulation-mode action handlers;
* `src/config/settings.py` — `Settings.validate`, `save_to_file`, `load_from_file`;
* `src/main.py` — the conversation-history trimming of `interactive_mode`.

Python strings are modelled as `List Char` where character-level
operations matter and as Lean `String` elsewhere; Python's dynamically
typed values are modelled by the inductive `Val`; a Python function that
may raise is modelled as returning `Except`; external dependencies
(the filesystem, `pathlib.Path.resolve`, the workspace manager, the
selenium driver) are taken as parameters, so every theorem quantifies
over their behaviour.
-/

/-- A dynamically typed Python value, restricted to the shapes that occur
in the configuration and in tool-response `data` dictionaries: strings,
ints, floats (modelled as rationals), booleans, lists of strings,
string-to-int dictionaries (the browser `window_size`), and `None`. -/
inductive Val where
  | vStr : String → Val
  | vInt : Int → Val
  | vRat : ℚ → Val
  | vBool : Bool → Val
  | vStrList : List String → Val
  | vIntDict : List (String × Int) → Val
  | vNone : Val
deriving DecidableEq, Repr

/-- A Python dictionary with string keys, as an association list. -/
abbrev Dict := List (String × Val)

/-- `d.get(k)` on a dictionary: the value at the first matching key. -/
def dictGet (d : Dict) (k : String) : Option Val :=
  (d.find? (fun kv => kv.1 == k)).map (·.2)

/-! ## Python string primitives (on `List Char`) -/

/-- Python's `\s` character class, restricted to ASCII
(space, tab, newline, carriage return, vertical tab, form feed). -/
def pyIsSpace (c : Char) : Bool :=
  c = ' ' || c = '\t' || c = '\n' || c = '\r' || c = '\x0b' || c = '\x0c'

/-- `str.lower()` (ASCII case folding). -/
def pyLower (l : List Char) : List Char := l.map Char.toLower

/-- `str.strip()`: drop leading and trailing whitespace. -/
def pyStrip (l : List Char) : List Char :=
  ((l.dropWhile pyIsSpace).reverse.dropWhile pyIsSpace).reverse

/-- Whether `needle` occurs at the very start of `hay`
(Python `str.startswith`). -/
def subAt : List Char → List Char → Bool
  | [], _ => true
  | _ :: _, [] => false
  | a :: as, b :: bs => a == b && subAt as bs

/-- Whether `needle` occurs somewhere inside `hay` (Python `in`). -/
def containsSub (needle : List Char) : List Char → Bool
  | [] => subAt needle []
  | c :: cs => subAt needle (c :: cs) || containsSub needle (c :: cs).tail

/-- Worker for the non-overlapping substring count: scan left to right;
`skip > 0` means the scan position is still inside a counted occurrence,
so `skip` more positions are passed over before matching resumes
(Python's `str.count` advances by `len(needle)` after each match). -/
def countOccurGo (n : List Char) : List Char → Nat → Nat
  | [], _ => 0
  | _ :: cs, Nat.succ k => countOccurGo n cs k
  | c :: cs, 0 =>
    if subAt n (c :: cs) then 1 + countOccurGo n cs (n.length - 1)
    else countOccurGo n cs 0

/-- Python `hay.count(needle)`: the number of non-overlapping occurrences
of `needle` in `hay`, scanning left to right.  Like Python, the empty
needle is counted `len(hay) + 1` times. -/
def countOccur (n hay : List Char) : Nat :=
  match n with
  | [] => hay.length + 1
  | _ :: _ => countOccurGo n hay 0

/-- Python slicing `l[i:]` for an `int` index `i` (negative indices count
from the end; in particular `l[0:]` and `l[-k:]` for `k ≥ len(l)` are
the whole list). -/
def pySliceFrom {α : Type} (l : List α) (i : Int) : List α :=
  if 0 ≤ i then l.drop i.toNat
  else l.drop (l.length - min (-i).toNat l.length)

/-- Python slicing `l[:i]` for an `int` index `i`. -/
def pySliceTo {α : Type} (l : List α) (i : Int) : List α :=
  if 0 ≤ i then l.take i.toNat
  else l.take (l.length - min (-i).toNat l.length)

/-! ## `base_tool.py`: `ToolResponse`, `BaseTool.safe_execute`,
`ToolRegistry.execute_tool` -/

/-- The `ToolResponse` dataclass of `base_tool.py`. -/
structure ToolResponse where
  success : Bool
  message : String
  data : Option Dict := none
  error : Option String := none
deriving DecidableEq, Repr

/-- A `BaseTool` instance, as seen by `safe_execute`: its name, its
`enabled` flag, and the two overridable methods.  A method that may
raise is modelled as returning `Except String`, the error being the
Python `str(e)` of the raised exception; `P` is the type of the
keyword-argument set. -/
structure Tool (P : Type) where
  name : String
  enabled : Bool
  validate_params : P → Except String Bool
  execute : P → Except String ToolResponse

/-- `BaseTool.is_available`. -/
def Tool.is_available {P : Type} (t : Tool P) : Bool := t.enabled

/-- `BaseTool.safe_execute`: the disabled-tool short circuit, the
parameter-validation failure, and the conversion of every exception
raised inside the `try` block (by `validate_params` or by `execute`)
into a failure `ToolResponse` carrying `str(e)` as `error`.
(The Python failure message for invalid parameters interpolates the
kwargs repr; that interpolation is elided here.) -/
def safe_execute {P : Type} (t : Tool P) (params : P) : ToolResponse :=
  if !t.is_available then
    { success := false
      message := "工具 " ++ t.name ++ " 当前不可用"
      error := some "Tool disabled" }
  else
    match t.validate_params params with
    | .error e =>
      { success := false, message := "工具执行失败", error := some e }
    | .ok false =>
      { success := false
        message := "参数验证失败"
        error := some "Invalid parameters" }
    | .ok true =>
      match t.execute params with
      | .error e =>
        { success := false, message := "工具执行失败", error := some e }
      | .ok r => r

/-- `ToolRegistry.get_tool`: `self.tools.get(tool_name)`, the registry
dictionary being an association list keyed by tool name. -/
def get_tool {P : Type} (tools : List (String × Tool P)) (name : String) :
    Option (Tool P) :=
  (tools.find? (fun kv => kv.1 == name)).map (·.2)

/-- `ToolRegistry.execute_tool`: a not-found failure for an unregistered
name, otherwise delegation to the tool's `safe_execute`. -/
def execute_tool {P : Type} (tools : List (String × Tool P)) (name : String)
    (params : P) : ToolResponse :=
  match get_tool tools name with
  | none =>
    { success := false
      message := "工具 " ++ name ++ " 不存在"
      error := some "Tool not found" }
  | some t => safe_execute t params

/-! ## `helpers.py`: `is_safe_path` -/

/-- `is_safe_path(path, base_path)` from `helpers.py`.  `Path.resolve`
is external (filesystem-dependent), so it is a parameter `res`; `res s =
none` models resolution raising `OSError`/`ValueError`, in which case
the function returns `False`.  On success the function compares the
*string renderings* of the resolved paths with `str.startswith`. -/
def is_safe_path (res : String → Option String) (path base_path : String) :
    Bool :=
  match res path, res base_path with
  | some rp, some rb => subAt rb.data rp.data
  | _, _ => false

/-- What it means for a resolved absolute path `p` to be contained within
the directory `base`: it is `base` itself or lies strictly below it
(its rendering extends `base` at a `/` component boundary). -/
def isWithin (base p : String) : Bool :=
  p == base || subAt (base.data ++ ['/']) p.data

/-! ## `shell_tool.py`: `ShellTool._is_command_safe` -/

/-- The base `dangerous_commands` denylist set up in `ShellTool.__init__`. -/
def dangerous_commands_base : List String :=
  ["rm -rf /", "format", "del /f /s /q", "shutdown", "reboot",
   "halt", "poweroff", "mkfs", "dd if=/dev/zero", "chmod -R 777 /",
   "chown -R root:root /", "mv / /dev/null", "> /dev/sda",
   "wget http://malicious", "curl http://malicious", "nc -l -p",
   "ncat -l -p", "socat TCP-LISTEN", "python -m SimpleHTTPServer"]

/-- The denylist on a non-Windows platform: the base list extended with
the POSIX-specific entries (`ShellTool.__init__`, `else` branch). -/
def dangerous_commands_posix : List String :=
  dangerous_commands_base ++
  [":()\x7b :|:& \x7d;:", "fork bomb", "sudo rm -rf /",
   "chmod 777 /etc/passwd", "userdel -r"]

/-- The `dangerous_chars` metacharacter list of `_is_command_safe`. -/
def dangerous_chars : List String :=
  [";", "|", "&", "`", "$(", "&&", "||", ">", ">>", "<"]

/-- `ShellTool._is_command_safe`, parameterised by the (platform-dependent)
`dangerous_commands` denylist: the command is unsafe when its
lower-cased, stripped form contains a denylisted entry (lower-cased), or
when some metacharacter occurs in it and occurs more than twice. -/
def is_command_safe (dangerous_commands : List String) (command : List Char) :
    Bool :=
  if dangerous_commands.any
      (fun d => containsSub (pyLower d.data) (pyStrip (pyLower command))) then
    false
  else if dangerous_chars.any
      (fun ch => containsSub ch.data command &&
                 decide (2 < countOccur ch.data command)) then false
  else true

/-- Whether a needle starts and ends with a non-whitespace character
(every entry of the denylist does, which makes the `strip()` in
`_is_command_safe` irrelevant to the substring test). -/
def edgeNotSpace (l : List Char) : Bool :=
  (match l.head? with | some a => !pyIsSpace a | none => false) &&
  (match l.reverse.head? with | some b => !pyIsSpace b | none => false)

/-! ## `settings.py`: the configuration dataclasses -/

/-- `AgentConfig`.  Fields hold arbitrary Python values (`Val`); the
defaults are the dataclass defaults. -/
structure AgentConfig where
  model : Val := .vStr ""
  base_url : Val := .vStr ""
  api_key : Val := .vStr ""
  max_tokens : Val := .vInt 4000
  temperature : Val := .vRat (7 / 10)
  max_conversation_history : Val := .vInt 10
deriving DecidableEq, Repr

/-- `WorkspaceConfig`. -/
structure WorkspaceConfig where
  path : Val := .vStr "./workspace"
  max_size_mb : Val := .vInt 100
  auto_cleanup : Val := .vBool true
deriving DecidableEq, Repr

/-- `BrowserConfig`. -/
structure BrowserConfig where
  headless : Val := .vBool true
  timeout_seconds : Val := .vInt 30
  window_size : Val := .vIntDict [("width", 1920), ("height", 1080)]
deriving DecidableEq, Repr

/-- `SearchConfig`. -/
structure SearchConfig where
  engine : Val := .vStr "tavily"
  max_results : Val := .vInt 10
  timeout_seconds : Val := .vInt 15
  api_key : Val := .vStr ""
deriving DecidableEq, Repr

/-- `ToolsConfig`. -/
structure ToolsConfig where
  file_operations : Val := .vBool true
  shell_commands : Val := .vBool true
  web_search : Val := .vBool true
  browser_automation : Val := .vBool true
deriving DecidableEq, Repr

/-- `LoggingConfig`. -/
structure LoggingConfig where
  level : Val := .vStr "INFO"
  file : Val := .vStr "./suna-lite.log"
  max_size_mb : Val := .vInt 10
  backup_count : Val := .vInt 5
deriving DecidableEq, Repr

/-- `SecurityConfig`. -/
structure SecurityConfig where
  allow_network : Val := .vBool true
  allowed_domains : Val := .vStrList []
  block_shell_commands : Val := .vStrList ["rm -rf", "format", "del"]
deriving DecidableEq, Repr

/-- `Settings`. -/
structure Settings where
  agent : AgentConfig := {}
  workspace : WorkspaceConfig := {}
  browser : BrowserConfig := {}
  search : SearchConfig := {}
  tools : ToolsConfig := {}
  logging : LoggingConfig := {}
  security : SecurityConfig := {}
deriving DecidableEq, Repr

/-- Python truthiness `bool(v)` for the modelled value shapes. -/
def truthy : Val → Bool
  | .vStr s => !(s == "")
  | .vInt n => !(n == 0)
  | .vRat q => !(q == 0)
  | .vBool b => b
  | .vStrList l => !l.isEmpty
  | .vIntDict l => !l.isEmpty
  | .vNone => false

/-- The numeric reading of a value, when it has one (Python treats
`bool` as numeric in comparisons; strings, lists, dicts and `None` do
not compare with numbers and raise `TypeError`). -/
def toNum : Val → Option ℚ
  | .vInt n => some (n : ℚ)
  | .vRat q => some q
  | .vBool b => some (if b then 1 else 0)
  | _ => none

/-- Python `a <= b`: a boolean for two numeric values, a `TypeError`
otherwise. -/
def pyLe (a b : Val) : Except Unit Bool :=
  match toNum a, toNum b with
  | some x, some y => .ok (decide (x ≤ y))
  | _, _ => .error ()

/-- Python's chained comparison `a <= b <= c`: `a <= b` first, and only
if it is true also `b <= c`. -/
def pyChainedLe (a b c : Val) : Except Unit Bool :=
  match pyLe a b with
  | .error e => .error e
  | .ok false => .ok false
  | .ok true => pyLe b c

/-- `Settings.validate`: empty-key and empty-URL checks, then the five
numeric comparisons, each one wrapped in `try/except` so that a
`TypeError` also yields `False`. -/
def Settings.validate (s : Settings) : Bool :=
  if !truthy s.agent.api_key then false
  else if !truthy s.agent.base_url then false
  else
    match pyLe s.agent.max_tokens (.vInt 0) with
    | .error _ => false
    | .ok true => false
    | .ok false =>
      match pyChainedLe (.vInt 0) s.agent.temperature (.vInt 2) with
      | .error _ => false
      | .ok false => false
      | .ok true =>
        match pyLe s.workspace.max_size_mb (.vInt 0) with
        | .error _ => false
        | .ok true => false
        | .ok false =>
          match pyLe s.browser.timeout_seconds (.vInt 0) with
          | .error _ => false
          | .ok true => false
          | .ok false =>
            match pyLe s.search.max_results (.vInt 0) with
            | .error _ => false
            | .ok true => false
            | .ok false => true

/-- The condition the specification states for each positive-quantity
field: the field is `≤ 0`, or comparing it raises a type error. -/
def numLeZeroOrTypeError (v : Val) : Prop :=
  (∃ q, toNum v = some q ∧ q ≤ 0) ∨ toNum v = none

/-- The condition the specification states for `temperature`: outside
`[0, 2]`, or comparing it raises a type error. -/
def tempOutsideRangeOrTypeError (v : Val) : Prop :=
  (∃ q, toNum v = some q ∧ (q < 0 ∨ 2 < q)) ∨ toNum v = none

/-! ### `settings.py`: `save_to_file` and `load_from_file`

The YAML layer (`yaml.dump` / `yaml.safe_load`) is external and is
modelled as the identity on the structured mapping it serialises: a
configuration file is the section-name-to-dictionary mapping that
`save_to_file` builds. -/

/-- The field names accepted by `AgentConfig(**d)`. -/
def agentFields : List String :=
  ["model", "base_url", "api_key", "max_tokens", "temperature",
   "max_conversation_history"]

/-- The field names accepted by `WorkspaceConfig(**d)`. -/
def workspaceFields : List String := ["path", "max_size_mb", "auto_cleanup"]

/-- The field names accepted by `BrowserConfig(**d)`. -/
def browserFields : List String := ["headless", "timeout_seconds", "window_size"]

/-- The field names accepted by `SearchConfig(**d)`. -/
def searchFields : List String :=
  ["engine", "max_results", "timeout_seconds", "api_key"]

/-- The field names accepted by `ToolsConfig(**d)`. -/
def toolsFields : List String :=
  ["file_operations", "shell_commands", "web_search", "browser_automation"]

/-- The field names accepted by `LoggingConfig(**d)`. -/
def loggingFields : List String := ["level", "file", "max_size_mb", "backup_count"]

/-- The field names accepted by `SecurityConfig(**d)`. -/
def securityFields : List String :=
  ["allow_network", "allowed_domains", "block_shell_commands"]

/-- `config_data.get(section, {})`. -/
def sectionGet (cfg : List (String × Dict)) (k : String) : Dict :=
  ((cfg.find? (fun kv => kv.1 == k)).map (·.2)).getD []

/-- The value a `dataclass(**d)` call gives a field: the dictionary
entry if present, the dataclass default otherwise. -/
def fieldGet (d : Dict) (k : String) (dflt : Val) : Val :=
  (dictGet d k).getD dflt

/-- `AgentConfig(**d)`: `none` models the `TypeError` raised on an
unexpected keyword; otherwise each field comes from the dictionary or
defaults. -/
def AgentConfig.fromDict (d : Dict) : Option AgentConfig :=
  if d.all (fun kv => agentFields.contains kv.1) then
    some { model := fieldGet d "model" (.vStr "")
           base_url := fieldGet d "base_url" (.vStr "")
           api_key := fieldGet d "api_key" (.vStr "")
           max_tokens := fieldGet d "max_tokens" (.vInt 4000)
           temperature := fieldGet d "temperature" (.vRat (7 / 10))
           max_conversation_history :=
             fieldGet d "max_conversation_history" (.vInt 10) }
  else none

/-- `WorkspaceConfig(**d)`. -/
def WorkspaceConfig.fromDict (d : Dict) : Option WorkspaceConfig :=
  if d.all (fun kv => workspaceFields.contains kv.1) then
    some { path := fieldGet d "path" (.vStr "./workspace")
           max_size_mb := fieldGet d "max_size_mb" (.vInt 100)
           auto_cleanup := fieldGet d "auto_cleanup" (.vBool true) }
  else none

/-- `BrowserConfig(**d)`. -/
def BrowserConfig.fromDict (d : Dict) : Option BrowserConfig :=
  if d.all (fun kv => browserFields.contains kv.1) then
    some { headless := fieldGet d "headless" (.vBool true)
           timeout_seconds := fieldGet d "timeout_seconds" (.vInt 30)
           window_size := fieldGet d "window_size"
             (.vIntDict [("width", 1920), ("height", 1080)]) }
  else none

/-- `SearchConfig(**d)`. -/
def SearchConfig.fromDict (d : Dict) : Option SearchConfig :=
  if d.all (fun kv => searchFields.contains kv.1) then
    some { engine := fieldGet d "engine" (.vStr "tavily")
           max_results := fieldGet d "max_results" (.vInt 10)
           timeout_seconds := fieldGet d "timeout_seconds" (.vInt 15)
           api_key := fieldGet d "api_key" (.vStr "") }
  else none

/-- `ToolsConfig(**d)`. -/
def ToolsConfig.fromDict (d : Dict) : Option ToolsConfig :=
  if d.all (fun kv => toolsFields.contains kv.1) then
    some { file_operations := fieldGet d "file_operations" (.vBool true)
           shell_commands := fieldGet d "shell_commands" (.vBool true)
           web_search := fieldGet d "web_search" (.vBool true)
           browser_automation := fieldGet d "browser_automation" (.vBool true) }
  else none

/-- `LoggingConfig(**d)`. -/
def LoggingConfig.fromDict (d : Dict) : Option LoggingConfig :=
  if d.all (fun kv => loggingFields.contains kv.1) then
    some { level := fieldGet d "level" (.vStr "INFO")
           file := fieldGet d "file" (.vStr "./suna-lite.log")
           max_size_mb := fieldGet d "max_size_mb" (.vInt 10)
           backup_count := fieldGet d "backup_count" (.vInt 5) }
  else none

/-- `SecurityConfig(**d)`. -/
def SecurityConfig.fromDict (d : Dict) : Option SecurityConfig :=
  if d.all (fun kv => securityFields.contains kv.1) then
    some { allow_network := fieldGet d "allow_network" (.vBool true)
           allowed_domains := fieldGet d "allowed_domains" (.vStrList [])
           block_shell_commands := fieldGet d "block_shell_commands"
             (.vStrList ["rm -rf", "format", "del"]) }
  else none

/-- `Settings.save_to_file`: the structured mapping written to the
configuration file, one dictionary per section, every field serialised. -/
def Settings.save_to_file (s : Settings) : List (String × Dict) :=
  [("agent",
    [("model", s.agent.model), ("base_url", s.agent.base_url),
     ("api_key", s.agent.api_key), ("max_tokens", s.agent.max_tokens),
     ("temperature", s.agent.temperature),
     ("max_conversation_history", s.agent.max_conversation_history)]),
   ("workspace",
    [("path", s.workspace.path), ("max_size_mb", s.workspace.max_size_mb),
     ("auto_cleanup", s.workspace.auto_cleanup)]),
   ("browser",
    [("headless", s.browser.headless),
     ("timeout_seconds", s.browser.timeout_seconds),
     ("window_size", s.browser.window_size)]),
   ("search",
    [("engine", s.search.engine), ("max_results", s.search.max_results),
     ("timeout_seconds", s.search.timeout_seconds),
     ("api_key", s.search.api_key)]),
   ("tools",
    [("file_operations", s.tools.file_operations),
     ("shell_commands", s.tools.shell_commands),
     ("web_search", s.tools.web_search),
     ("browser_automation", s.tools.browser_automation)]),
   ("logging",
    [("level", s.logging.level), ("file", s.logging.file),
     ("max_size_mb", s.logging.max_size_mb),
     ("backup_count", s.logging.backup_count)]),
   ("security",
    [("allow_network", s.security.allow_network),
     ("allowed_domains", s.security.allowed_domains),
     ("block_shell_commands", s.security.block_shell_commands)])]

/-- The `try` body of `Settings.load_from_file`: build every section's
config object; `none` models an exception escaping the construction. -/
def Settings.parse_config (cfg : List (String × Dict)) : Option Settings := do
  let a ← AgentConfig.fromDict (sectionGet cfg "agent")
  let w ← WorkspaceConfig.fromDict (sectionGet cfg "workspace")
  let b ← BrowserConfig.fromDict (sectionGet cfg "browser")
  let se ← SearchConfig.fromDict (sectionGet cfg "search")
  let t ← ToolsConfig.fromDict (sectionGet cfg "tools")
  let lg ← LoggingConfig.fromDict (sectionGet cfg "logging")
  let sec ← SecurityConfig.fromDict (sectionGet cfg "security")
  pure { agent := a, workspace := w, browser := b, search := se,
         tools := t, logging := lg, security := sec }

/-- `Settings.load_from_file` on an existing, non-empty configuration
file: the parsed settings, or the all-default `Settings` when the
construction raises. -/
def Settings.load_from_file (cfg : List (String × Dict)) : Settings :=
  (Settings.parse_config cfg).getD {}

/-! ## `helpers.py`: `clean_filename`, and `file_tool.py` -/

/-- The character class of `re.sub(r'[<>:"/\\|?*]', '_', filename)`. -/
def forbiddenFilenameChars : List Char :=
  ['<', '>', ':', '"', '/', '\\', '|', '?', '*']

/-- First step of `clean_filename`: replace every unsafe character by
an underscore. -/
def replaceForbidden (l : List Char) : List Char :=
  l.map (fun c => if forbiddenFilenameChars.contains c then '_' else c)

/-- Worker for whitespace-run collapsing: `inRun` records whether the
previous character was part of a whitespace run already rendered as an
underscore. -/
def collapseWsGo : Bool → List Char → List Char
  | _, [] => []
  | inRun, c :: cs =>
    if pyIsSpace c then
      (if inRun then [] else ['_']) ++ collapseWsGo true cs
    else c :: collapseWsGo false cs

/-- Second step: `re.sub(r'[\s]+', '_', filename)` — every maximal run
of whitespace becomes a single underscore. -/
def collapseWs (l : List Char) : List Char := collapseWsGo false l

/-- Third step: `filename.strip('._')` — drop leading and trailing dots
and underscores. -/
def stripDotUnderscore (l : List Char) : List Char :=
  ((l.dropWhile (fun c => c == '.' || c == '_')).reverse.dropWhile
    (fun c => c == '.' || c == '_')).reverse

/-- `os.path.splitext` on a name without path separators: split at the
last dot, unless every character before it is a dot. -/
def splitext (l : List Char) : List Char × List Char :=
  match l.reverse.findIdx? (fun c => c == '.') with
  | none => (l, [])
  | some r =>
    let i := l.length - 1 - r
    if (l.take i).all (fun c => c == '.') then (l, [])
    else (l.take i, l.drop i)

/-- `clean_filename` from `helpers.py`: unsafe characters to `_`,
whitespace runs to `_`, strip `.` and `_` from the ends, and cap the
length at 255 keeping the extension. -/
def clean_filename (l : List Char) : List Char :=
  let f := stripDotUnderscore (collapseWs (replaceForbidden l))
  if 255 < f.length then
    let ne := splitext f
    pySliceTo ne.1 (255 - (ne.2.length : Int)) ++ ne.2
  else f

/-- `len` on a Lean string, counting characters like Python's `len`. -/
def pyLen (s : String) : Nat := s.data.length

/-- `s[:n]` on a string, for a nonnegative `n`. -/
def pyTakeStr (s : String) (n : Nat) : String := String.mk (s.data.take n)

/-- The workspace-manager and filesystem services `FileTool` depends on
(`src.workspace` is not part of the repository snapshot, so they are
parameters): reading a file (`none` models failure), the mime type
guessed for the resolved path, and the size from `get_file_info`. -/
structure FileCtx where
  wmRead : String → String → Option String
  mimeOf : String → Option String
  sizeOf : String → Option Int

/-- The text branch of `FileTool._read_file`: content longer than
50,000 characters is truncated to its first 5,000 plus a note, with the
true length in `full_length`; shorter content is returned in full. -/
def read_file_text (content encoding : String) : ToolResponse :=
  if 50000 < pyLen content then
    { success := true
      message := "读取文件成功（内容过长，显示前5000字符）"
      data := some [("type", .vStr "text"),
                    ("content", .vStr (pyTakeStr content 5000 ++
                                       "\n\n... [内容过长，已截断] ...")),
                    ("full_length", .vInt (pyLen content)),
                    ("encoding", .vStr encoding),
                    ("note", .vStr "文件内容过长，仅显示预览")] }
  else
    { success := true
      message := "读取文件成功"
      data := some [("type", .vStr "text"),
                    ("content", .vStr content),
                    ("length", .vInt (pyLen content)),
                    ("encoding", .vStr encoding)] }

/-- `FileTool._read_file`: failure when the workspace read yields
nothing, the binary-file branch for `application/*` mime types, and the
text branch otherwise. -/
def read_file (ctx : FileCtx) (path encoding : String) : ToolResponse :=
  match ctx.wmRead path encoding with
  | none =>
    { success := false
      message := "无法读取文件: " ++ path
      error := some "File not found or unreadable" }
  | some content =>
    match ctx.mimeOf path with
    | some m =>
      if subAt "application/".data m.data then
        { success := true
          message := "检测到二进制文件，显示基本信息"
          data := some [("type", .vStr "binary"),
                        ("mime_type", .vStr m),
                        ("size", .vInt ((ctx.sizeOf path).getD 0)),
                        ("encoding", .vStr encoding),
                        ("note", .vStr "这是一个二进制文件，无法直接显示内容")] }
      else read_file_text content encoding
    | none => read_file_text content encoding

/-- `FileTool._write_file`: the requested path is passed through
`clean_filename` before being handed to the workspace manager's
`write_file` (a parameter `wmWrite`; an exception it raises is caught). -/
def write_file (wmWrite : String → String → Except String Bool)
    (path content encoding : String) : ToolResponse :=
  let cleaned := String.mk (clean_filename path.data)
  match wmWrite cleaned content with
  | .ok true =>
    { success := true
      message := "写入文件成功: " ++ cleaned
      data := some [("path", .vStr cleaned),
                    ("length", .vInt (pyLen content)),
                    ("encoding", .vStr encoding)] }
  | .ok false =>
    { success := false
      message := "写入文件失败: " ++ cleaned
      error := some "Failed to write file" }
  | .error e =>
    { success := false
      message := "写入文件失败: " ++ e
      error := some e }

/-! ## `browser_tool.py`: the simulation-mode handlers -/

/-- The browser-side state kept by `BrowserTool` (with the driver
permanently absent: the simulation mode of interest). -/
structure BrowserState where
  current_url : Option String := none
  page_title : Option String := none
  session_history : List String := []
deriving DecidableEq, Repr

/-- `BrowserTool.supported_actions`. -/
def supported_actions : List String :=
  ["navigate", "click", "fill", "submit", "extract", "screenshot",
   "back", "forward", "refresh", "get_title", "get_url", "find_element"]

/-- The value a possibly-`None` Python string contributes to a response
dictionary. -/
def optVal : Option String → Val
  | none => .vNone
  | some s => .vStr s

/-- F-string interpolation of a possibly-`None` value. -/
def pyReprOpt : Option String → String
  | none => "None"
  | some s => s

/-- Python `v or d` on an optional string: `d` when `v` is `None` or
empty (falsy), `v` otherwise. -/
def pyOrStr (v : Option String) (d : String) : String :=
  match v with
  | some s => if s == "" then d else s
  | none => d

/-- Python truthiness of a `kwargs.get` result: `None` and the empty
string are falsy, so `if not url:` / `if not selector:` treat an empty
string exactly like a missing argument. -/
def pyTruthyOptStr : Option String → Bool
  | none => false
  | some s => !(s == "")

/-- `BrowserTool.execute` when the tool has no real driver
(`self.driver is None` throughout, `_initialize_browser` having left it
`None`): the dispatch over `action` with the simulation branch of every
handler, returning the response and the updated browser state.  The
keyword arguments `url`, `selector`, `value` are `kwargs.get` results;
the code's `if not action:` / `if not url:` / `if not selector:` guards
are falsiness tests, so an empty string is rejected as missing. -/
def browser_execute_sim (st : BrowserState) (action : Option String)
    (url selector value : Option String) : ToolResponse × BrowserState :=
  if !pyTruthyOptStr action then
    ({ success := false, message := "缺少操作类型参数"
       error := some "Missing action parameter" }, st)
  else
    let act := action.getD ""
    if !supported_actions.contains act then
      ({ success := false, message := "不支持的操作类型: " ++ act
         error := some "Unsupported action" }, st)
    else if act == "navigate" then
      if !pyTruthyOptStr url then
        ({ success := false, message := "缺少URL参数"
           error := some "Missing URL parameter" }, st)
      else
        let u := url.getD ""
        ({ success := true
           message := "模拟导航到: " ++ u
           data := some [("url", .vStr u),
                         ("title", .vStr ("模拟页面 - " ++ u)),
                         ("mode", .vStr "simulation")] },
         { current_url := some u
           page_title := some ("模拟页面 - " ++ u)
           session_history := st.session_history ++ [u] })
    else if act == "click" then
      if !pyTruthyOptStr selector then
        ({ success := false, message := "缺少选择器参数"
           error := some "Missing selector parameter" }, st)
      else
        let sel := selector.getD ""
        ({ success := true
           message := "模拟点击元素: " ++ sel
           data := some [("selector", .vStr sel), ("action", .vStr "click"),
                         ("mode", .vStr "simulation")] }, st)
    else if act == "fill" then
      if !pyTruthyOptStr selector then
        ({ success := false, message := "缺少选择器参数"
           error := some "Missing selector parameter" }, st)
      else
        let sel := selector.getD ""
        ({ success := true
           message := "模拟填写表单: " ++ sel ++ " = " ++ value.getD ""
           data := some [("selector", .vStr sel),
                         ("value", .vStr (value.getD "")),
                         ("action", .vStr "fill"),
                         ("mode", .vStr "simulation")] }, st)
    else if act == "submit" then
      ({ success := true
         message := "模拟提交表单: " ++ pyReprOpt selector
         data := some [("selector", optVal selector),
                       ("action", .vStr "submit"),
                       ("mode", .vStr "simulation")] }, st)
    else if act == "extract" then
      ({ success := true
         message := "成功提取内容（模拟模式）"
         data := some [("content", .vStr
                          (if pyTruthyOptStr selector then
                            "模拟提取的内容 - 选择器: " ++ selector.getD ""
                           else "模拟页面内容 - URL: " ++
                                pyReprOpt st.current_url)),
                       ("selector", optVal selector),
                       ("mode", .vStr "simulation")] }, st)
    else if act == "screenshot" then
      ({ success := true
         message := "模拟截图功能"
         data := some [("action", .vStr "screenshot"),
                       ("mode", .vStr "simulation"),
                       ("note", .vStr "在真实浏览器模式下会保存截图文件")] }, st)
    else if act == "back" then
      ({ success := true, message := "模拟返回上一页"
         data := some [("action", .vStr "back"),
                       ("mode", .vStr "simulation")] }, st)
    else if act == "forward" then
      ({ success := true, message := "模拟前进到下一页"
         data := some [("action", .vStr "forward"),
                       ("mode", .vStr "simulation")] }, st)
    else if act == "refresh" then
      ({ success := true, message := "模拟刷新页面"
         data := some [("action", .vStr "refresh"),
                       ("mode", .vStr "simulation")] }, st)
    else if act == "get_title" then
      ({ success := true
         message := "页面标题: " ++ pyOrStr st.page_title "模拟页面标题"
         data := some [("title", .vStr (pyOrStr st.page_title "模拟页面标题"))] },
       st)
    else if act == "get_url" then
      ({ success := true
         message := "当前URL: " ++ pyOrStr st.current_url "https://example.com"
         data := some [("url",
                        .vStr (pyOrStr st.current_url "https://example.com"))] },
       st)
    else if act == "find_element" then
      if !pyTruthyOptStr selector then
        ({ success := false, message := "缺少选择器参数"
           error := some "Missing selector parameter" }, st)
      else
        let sel := selector.getD ""
        ({ success := true
           message := "模拟查找元素: " ++ sel
           data := some [("selector", .vStr sel), ("found", .vBool true),
                         ("mode", .vStr "simulation")] }, st)
    else
      ({ success := false, message := "未实现的操作: " ++ act
         error := some "Action not implemented" }, st)

/-! ## `main.py`: conversation-history trimming -/

/-- One `{role, content, timestamp}` history entry. -/
structure Msg where
  role : String
  content : String
  timestamp : String
deriving DecidableEq, Repr

/-- One REPL turn's history update (`SunaCLI.interactive_mode`): the
user's line is always appended, the assistant's reply only on success,
and then the history gets trimmed with
`history[-max_conversation_history * 2:]` whenever its length exceeds
`max_conversation_history * 2`. -/
def history_turn_update (maxHist : Int) (history : List Msg)
    (userMsg : Msg) (assistantMsg : Option Msg) : List Msg :=
  let h := (history ++ [userMsg]) ++ assistantMsg.toList
  if (maxHist * 2 : Int) < h.length then pySliceFrom h (-(maxHist * 2)) else h

/-- Running the REPL loop over a list of turns, starting from the empty
history. -/
def run_turns (maxHist : Int) (turns : List (Msg × Option Msg)) : List Msg :=
  turns.foldl (fun h t => history_turn_update maxHist h t.1 t.2) []

/-- The same turns, appended without trimming: the full sequence of
entries, of which the trimmed history keeps a suffix. -/
def allAppended (turns : List (Msg × Option Msg)) : List Msg :=
  turns.foldl (fun acc t => (acc ++ [t.1]) ++ t.2.toList) []

/-- Twenty-five successful turn pairs, as the specification's trimming
example requires. -/
def demoTurns : List (Msg × Option Msg) :=
  (List.range 25).map (fun i =>
    ({ role := "user", content := "u" ++ toString i, timestamp := "t" },
     some { role := "assistant", content := "a" ++ toString i,
            timestamp := "t" }))

/-- A file context serving one fixed 60,000-character file, for
exercising the truncation branch of `read_file`. -/
def ctx60 : FileCtx :=
  { wmRead := fun _ _ => some (String.mk (List.replicate 60000 'a'))
    mimeOf := fun _ => none
    sizeOf := fun _ => none }

/-- A tool that is disabled, for exercising the disabled short-circuit. -/
def demoDisabledTool : Tool Unit :=
  { name := "demo"
    enabled := false
    validate_params := fun _ => .ok true
    execute := fun _ => .ok { success := true, message := "" } }

/-- A workspace-manager `write_file` that always succeeds, for
exercising the write path. -/
def wmAlwaysOk : String → String → Except String Bool := fun _ _ => .ok true

/-! ## Helper lemmas about the string primitives -/

theorem subAt_iff (n h : List Char) : subAt n h = true ↔ ∃ t, h = n ++ t := by
  induction n generalizing h with
  | nil => simp [subAt]
  | cons a as ih =>
    cases h with
    | nil => simp [subAt]
    | cons c cs =>
      simp only [subAt, Bool.and_eq_true, beq_iff_eq, ih, List.cons_append]
      constructor
      · rintro ⟨rfl, t, rfl⟩
        exact ⟨t, rfl⟩
      · rintro ⟨t, ht⟩
        injection ht with h1 h2
        exact ⟨h1.symm, t, h2⟩

theorem containsSub_iff (n h : List Char) :
    containsSub n h = true ↔ ∃ p t, h = p ++ n ++ t := by
  induction h with
  | nil =>
    simp only [containsSub, subAt_iff]
    constructor
    · rintro ⟨t, ht⟩
      exact ⟨[], t, by simpa using ht⟩
    · rintro ⟨p, t, hp⟩
      rw [List.append_assoc] at hp
      rcases List.append_eq_nil.mp hp.symm with ⟨rfl, h2⟩
      exact ⟨t, by simpa using h2⟩
  | cons c cs ih =>
    simp only [containsSub, List.tail_cons, Bool.or_eq_true, subAt_iff, ih]
    constructor
    · rintro (⟨t, ht⟩ | ⟨p, t, ht⟩)
      · exact ⟨[], t, by simpa using ht⟩
      · exact ⟨c :: p, t, by simp [ht]⟩
    · rintro ⟨p, t, hp⟩
      cases p with
      | nil => exact Or.inl ⟨t, by simpa using hp⟩
      | cons x xs =>
        rw [List.cons_append, List.cons_append] at hp
        injection hp with h1 h2
        exact Or.inr ⟨xs, t, h2⟩

theorem containsSub_nil_needle (h : List Char) : containsSub [] h = true := by
  cases h <;> simp [containsSub, subAt]

theorem containsSub_of_countOccurGo_pos (a : Char) (as h : List Char) :
    ∀ k : Nat, 0 < countOccurGo (a :: as) h k →
      containsSub (a :: as) h = true := by
  induction h with
  | nil => intro k hk; simp [countOccurGo] at hk
  | cons c cs ih =>
    intro k hk
    cases k with
    | zero =>
      by_cases hs : subAt (a :: as) (c :: cs) = true
      · simp [containsSub, hs]
      · rw [countOccurGo, if_neg hs] at hk
        have := ih 0 hk
        simp [containsSub, this]
    | succ k =>
      rw [countOccurGo] at hk
      have := ih k hk
      simp [containsSub, this]

theorem containsSub_of_countOccur_pos (n h : List Char)
    (hpos : 0 < countOccur n h) : containsSub n h = true := by
  cases n with
  | nil => exact containsSub_nil_needle h
  | cons a as =>
    exact containsSub_of_countOccurGo_pos a as h 0 (by simpa [countOccur] using hpos)

theorem containsSub_dropWhile_front (a : Char) (as h : List Char)
    (ha : pyIsSpace a = false) :
    containsSub (a :: as) (h.dropWhile pyIsSpace) = containsSub (a :: as) h := by
  induction h with
  | nil => rfl
  | cons c cs ih =>
    by_cases hc : pyIsSpace c = true
    · rw [List.dropWhile_cons_of_pos hc, ih]
      have hs : subAt (a :: as) (c :: cs) = false := by
        have hac : (a == c) = false := by
          cases hb : (a == c)
          · rfl
          · rw [beq_iff_eq] at hb
            rw [hb, hc] at ha
            simp at ha
        simp [subAt, hac]
      simp [containsSub, hs]
    · rw [List.dropWhile_cons_of_neg hc]

theorem containsSub_reverse (n h : List Char) :
    containsSub n.reverse h.reverse = containsSub n h := by
  have key : ∀ n' h' : List Char, containsSub n' h' = true →
      containsSub n'.reverse h'.reverse = true := by
    intro n' h' hch
    rw [containsSub_iff] at hch ⊢
    obtain ⟨p, t, rfl⟩ := hch
    exact ⟨t.reverse, p.reverse, by simp⟩
  by_cases hc : containsSub n h = true
  · rw [hc]
    exact key n h hc
  · have h2 : ¬containsSub n.reverse h.reverse = true := by
      intro hcontra
      have := key _ _ hcontra
      simp only [List.reverse_reverse] at this
      exact hc this
    rw [Bool.not_eq_true] at hc h2
    rw [hc, h2]

theorem containsSub_pyStrip (n h : List Char) (hedge : edgeNotSpace n = true) :
    containsSub n (pyStrip h) = containsSub n h := by
  simp only [edgeNotSpace, Bool.and_eq_true] at hedge
  obtain ⟨hh, hl⟩ := hedge
  cases hn : n with
  | nil => simp [hn] at hh
  | cons a as =>
    subst hn
    simp only [List.head?_cons] at hh
    have ha : pyIsSpace a = false := by
      cases hb : pyIsSpace a
      · rfl
      · rw [hb] at hh; simp at hh
    cases hr : (a :: as).reverse with
    | nil => exact absurd hr (by simp)
    | cons b bs =>
      rw [hr] at hl
      simp only [List.head?_cons] at hl
      have hb : pyIsSpace b = false := by
        cases hb' : pyIsSpace b
        · rfl
        · rw [hb'] at hl; simp at hl
      unfold pyStrip
      calc containsSub (a :: as)
              ((h.dropWhile pyIsSpace).reverse.dropWhile pyIsSpace).reverse
          = containsSub (a :: as).reverse.reverse
              ((h.dropWhile pyIsSpace).reverse.dropWhile pyIsSpace).reverse := by
            rw [List.reverse_reverse]
        _ = containsSub (a :: as).reverse
              ((h.dropWhile pyIsSpace).reverse.dropWhile pyIsSpace) :=
            containsSub_reverse _ _
        _ = containsSub (b :: bs)
              ((h.dropWhile pyIsSpace).reverse.dropWhile pyIsSpace) := by rw [hr]
        _ = containsSub (b :: bs) (h.dropWhile pyIsSpace).reverse :=
            containsSub_dropWhile_front b bs _ hb
        _ = containsSub (a :: as).reverse (h.dropWhile pyIsSpace).reverse := by
            rw [hr]
        _ = containsSub (a :: as) (h.dropWhile pyIsSpace) :=
            containsSub_reverse _ _
        _ = containsSub (a :: as) h := containsSub_dropWhile_front a as h ha

/-! ## Claim theorems -/

/-- C1: the claim states that `is_safe_path` returns true only if the
resolved path is contained within the resolved base directory.  The code
instead compares the rendered paths with a bare `str.startswith`, so for
any resolver fixing the absolute, already-normal paths `/a/bc` and
`/a/b` (as `Path.resolve` does when no symlink interferes),
`is_safe_path("/a/bc", "/a/b")` returns true although `/a/bc` lies
outside the directory `/a/b`. -/
theorem c1_is_safe_path_prefix_bug (res : String → Option String)
    (hp : res "/a/bc" = some "/a/bc") (hb : res "/a/b" = some "/a/b") :
    is_safe_path res "/a/bc" "/a/b" = true ∧ isWithin "/a/b" "/a/bc" = false := by
  constructor
  · unfold is_safe_path
    rw [hp, hb]
    decide
  · decide

/-- Witness for C1 at the identity resolver. -/
theorem c1_is_safe_path_prefix_bug_witness :
    is_safe_path (fun s => some s) "/a/bc" "/a/b" = true ∧
    isWithin "/a/b" "/a/bc" = false :=
  c1_is_safe_path_prefix_bug (fun s => some s) rfl rfl

/-- C2: `safe_execute` never propagates an exception.  A disabled tool
yields the disabled failure and the result does not depend on `execute`
(so `execute` is never entered); rejected parameters yield the
invalid-parameters failure, again independently of `execute`; an
exception raised by `validate_params` or by `execute` is converted into
a failure response carrying the exception text as `error`; and a
response returned by `execute` is passed through. -/
theorem c2_safe_execute_never_raises {P : Type} (t : Tool P) (params : P) :
    (t.enabled = false →
      safe_execute t params =
        { success := false, message := "工具 " ++ t.name ++ " 当前不可用",
          error := some "Tool disabled" } ∧
      ∀ ex : P → Except String ToolResponse,
        safe_execute { t with execute := ex } params = safe_execute t params) ∧
    (t.enabled = true → t.validate_params params = .ok false →
      safe_execute t params =
        { success := false, message := "参数验证失败",
          error := some "Invalid parameters" } ∧
      ∀ ex : P → Except String ToolResponse,
        safe_execute { t with execute := ex } params = safe_execute t params) ∧
    (∀ e, t.enabled = true → t.validate_params params = .error e →
      safe_execute t params =
        { success := false, message := "工具执行失败", error := some e }) ∧
    (∀ e, t.enabled = true → t.validate_params params = .ok true →
      t.execute params = .error e →
      safe_execute t params =
        { success := false, message := "工具执行失败", error := some e }) ∧
    (∀ r, t.enabled = true → t.validate_params params = .ok true →
      t.execute params = .ok r → safe_execute t params = r) := by
  refine ⟨fun h => ⟨?_, fun ex => ?_⟩, fun h hv => ⟨?_, fun ex => ?_⟩,
          fun e h hv => ?_, fun e h hv hx => ?_, fun r h hv hx => ?_⟩ <;>
    simp [safe_execute, Tool.is_available, h, *]

/-- Witness for C2: the disabled demo tool short-circuits. -/
theorem c2_safe_execute_never_raises_witness :
    safe_execute demoDisabledTool () =
      { success := false
        message := "工具 " ++ demoDisabledTool.name ++ " 当前不可用"
        error := some "Tool disabled" } :=
  ((c2_safe_execute_never_raises demoDisabledTool ()).1 rfl).1

/-- C10: `execute_tool` on an unregistered name returns the not-found
failure, with a result that does not depend on the registered tools (so
no tool code runs); on a registered name it delegates to that tool's
`safe_execute`. -/
theorem c10_execute_tool_dispatch {P : Type} (tools : List (String × Tool P))
    (name : String) (params : P) :
    (get_tool tools name = none →
      execute_tool tools name params =
        { success := false, message := "工具 " ++ name ++ " 不存在",
          error := some "Tool not found" } ∧
      ∀ tools2 : List (String × Tool P), get_tool tools2 name = none →
        execute_tool tools name params = execute_tool tools2 name params) ∧
    (∀ t, get_tool tools name = some t →
      execute_tool tools name params = safe_execute t params) := by
  constructor
  · intro h
    constructor
    · simp [execute_tool, h]
    · intro tools2 h2
      simp [execute_tool, h, h2]
  · intro t h
    simp [execute_tool, h]

/-- Witness for C10: an empty registry knows no tool. -/
theorem c10_execute_tool_dispatch_witness :
    execute_tool ([] : List (String × Tool Unit)) "not_a_tool" () =
      { success := false, message := "工具 " ++ "not_a_tool" ++ " 不存在",
        error := some "Tool not found" } :=
  ((c10_execute_tool_dispatch [] "not_a_tool" ()).1 rfl).1

/-- C3: `_is_command_safe` (with the POSIX denylist) rejects a command
exactly when its lower-cased form contains a denylisted entry
case-insensitively, or some metacharacter token occurs more than twice
in it; and `a;b;c;d` in particular is rejected. -/
theorem c3_is_command_safe_characterisation :
    (∀ cmd : List Char,
      is_command_safe dangerous_commands_posix cmd = false ↔
        ((∃ d ∈ dangerous_commands_posix,
            containsSub (pyLower d.data) (pyLower cmd) = true) ∨
         (∃ ch ∈ dangerous_chars, 2 < countOccur ch.data cmd))) ∧
    is_command_safe dangerous_commands_posix "a;b;c;d".data = false := by
  constructor
  · intro cmd
    have hedges : ∀ d ∈ dangerous_commands_posix,
        edgeNotSpace (pyLower d.data) = true := by decide
    have hA : (dangerous_commands_posix.any
        (fun d => containsSub (pyLower d.data) (pyStrip (pyLower cmd))) = true) ↔
        (∃ d ∈ dangerous_commands_posix,
          containsSub (pyLower d.data) (pyLower cmd) = true) := by
      rw [List.any_eq_true]
      constructor
      · rintro ⟨d, hd, hc⟩
        exact ⟨d, hd, by
          rw [← containsSub_pyStrip _ _ (hedges d hd)]; exact hc⟩
      · rintro ⟨d, hd, hc⟩
        exact ⟨d, hd, by
          rw [containsSub_pyStrip _ _ (hedges d hd)]; exact hc⟩
    have hB : (dangerous_chars.any
        (fun ch => containsSub ch.data cmd &&
          decide (2 < countOccur ch.data cmd)) = true) ↔
        (∃ ch ∈ dangerous_chars, 2 < countOccur ch.data cmd) := by
      rw [List.any_eq_true]
      constructor
      · rintro ⟨ch, hch, hc⟩
        rw [Bool.and_eq_true, decide_eq_true_eq] at hc
        exact ⟨ch, hch, hc.2⟩
      · rintro ⟨ch, hch, hc⟩
        refine ⟨ch, hch, ?_⟩
        rw [Bool.and_eq_true, decide_eq_true_eq]
        exact ⟨containsSub_of_countOccur_pos _ _ (by omega), hc⟩
    have hmain : is_command_safe dangerous_commands_posix cmd = false ↔
        ((dangerous_commands_posix.any
            (fun d => containsSub (pyLower d.data) (pyStrip (pyLower cmd)))) =
              true ∨
         (dangerous_chars.any
            (fun ch => containsSub ch.data cmd &&
              decide (2 < countOccur ch.data cmd))) = true) := by
      unfold is_command_safe
      generalize (dangerous_commands_posix.any
        (fun d => containsSub (pyLower d.data) (pyStrip (pyLower cmd)))) = a
      generalize (dangerous_chars.any
        (fun ch => containsSub ch.data cmd &&
          decide (2 < countOccur ch.data cmd))) = b
      cases a <;> cases b <;> simp
    exact hmain.trans (or_congr hA hB)
  · decide

theorem pyLe_zero_not_ok_false_iff (v : Val) :
    ¬(pyLe v (.vInt 0) = .ok false) ↔ numLeZeroOrTypeError v := by
  unfold pyLe numLeZeroOrTypeError
  cases hv : toNum v with
  | none => simp [hv, toNum]
  | some q =>
    simp only [hv, toNum, Int.cast_zero]
    by_cases hq : q ≤ (0:ℚ)
    · simp [hq]
    · simp [hq]

theorem pyChainedLe_temp_not_ok_true_iff (v : Val) :
    ¬(pyChainedLe (.vInt 0) v (.vInt 2) = .ok true) ↔
      tempOutsideRangeOrTypeError v := by
  unfold pyChainedLe pyLe tempOutsideRangeOrTypeError
  cases hv : toNum v with
  | none => simp [hv, toNum]
  | some q =>
    simp only [hv, toNum, Int.cast_zero, Int.cast_ofNat]
    by_cases h0 : (0:ℚ) ≤ q
    · by_cases h2 : q ≤ (2:ℚ)
      · simp [h0, h2]
      · simp [h0, h2]
        exact Or.inr (not_le.mp h2)
    · simp [h0]
      exact Or.inl (not_le.mp h0)

/-- C4: `Settings.validate` returns false exactly when the agent API key
or base URL is falsy (empty), or one of the positive-quantity fields is
`≤ 0` or raises a type error when compared, or `temperature` is outside
`[0, 2]` or raises a type error; and the all-default `Settings` fails
validation. -/
theorem c4_validate_characterisation :
    (∀ s : Settings, Settings.validate s = false ↔
      (truthy s.agent.api_key = false ∨ truthy s.agent.base_url = false ∨
       numLeZeroOrTypeError s.agent.max_tokens ∨
       tempOutsideRangeOrTypeError s.agent.temperature ∨
       numLeZeroOrTypeError s.workspace.max_size_mb ∨
       numLeZeroOrTypeError s.browser.timeout_seconds ∨
       numLeZeroOrTypeError s.search.max_results)) ∧
    Settings.validate {} = false := by
  constructor
  · intro s
    rw [← pyLe_zero_not_ok_false_iff s.agent.max_tokens,
        ← pyChainedLe_temp_not_ok_true_iff s.agent.temperature,
        ← pyLe_zero_not_ok_false_iff s.workspace.max_size_mb,
        ← pyLe_zero_not_ok_false_iff s.browser.timeout_seconds,
        ← pyLe_zero_not_ok_false_iff s.search.max_results]
    cases hk : truthy s.agent.api_key with
    | false => simp [Settings.validate, hk]
    | true =>
    cases hu : truthy s.agent.base_url with
    | false => simp [Settings.validate, hk, hu]
    | true =>
    cases hmt : pyLe s.agent.max_tokens (Val.vInt 0) with
    | error e => simp [Settings.validate, hk, hu, hmt]
    | ok b =>
    cases b with
    | true => simp [Settings.validate, hk, hu, hmt]
    | false =>
    cases htp : pyChainedLe (Val.vInt 0) s.agent.temperature (Val.vInt 2) with
    | error e => simp [Settings.validate, hk, hu, hmt, htp]
    | ok b2 =>
    cases b2 with
    | false => simp [Settings.validate, hk, hu, hmt, htp]
    | true =>
    cases hws : pyLe s.workspace.max_size_mb (Val.vInt 0) with
    | error e => simp [Settings.validate, hk, hu, hmt, htp, hws]
    | ok b3 =>
    cases b3 with
    | true => simp [Settings.validate, hk, hu, hmt, htp, hws]
    | false =>
    cases hbr : pyLe s.browser.timeout_seconds (Val.vInt 0) with
    | error e => simp [Settings.validate, hk, hu, hmt, htp, hws, hbr]
    | ok b4 =>
    cases b4 with
    | true => simp [Settings.validate, hk, hu, hmt, htp, hws, hbr]
    | false =>
    cases hsr : pyLe s.search.max_results (Val.vInt 0) with
    | error e => simp [Settings.validate, hk, hu, hmt, htp, hws, hbr, hsr]
    | ok b5 =>
    cases b5 with
    | true => simp [Settings.validate, hk, hu, hmt, htp, hws, hbr, hsr]
    | false => simp [Settings.validate, hk, hu, hmt, htp, hws, hbr, hsr]
  · rfl

/-- C9: saving a `Settings` and loading the written configuration file
reproduces every field of every section. -/
theorem c9_settings_round_trip (s : Settings) :
    Settings.load_from_file (Settings.save_to_file s) = s := rfl

/-- C5: on a readable non-binary file, `_read_file` succeeds; content of
at most 50,000 characters is returned in full with its length, and
longer content is returned as exactly the first 5,000 characters plus
the truncation note, with `full_length` reporting the true length. -/
theorem c5_read_file_truncation (ctx : FileCtx) (path enc content : String)
    (hread : ctx.wmRead path enc = some content)
    (hmime : ∀ m, ctx.mimeOf path = some m →
      subAt "application/".data m.data = false) :
    (read_file ctx path enc).success = true ∧
    (pyLen content ≤ 50000 →
      dictGet ((read_file ctx path enc).data.getD []) "content" =
        some (.vStr content) ∧
      dictGet ((read_file ctx path enc).data.getD []) "length" =
        some (.vInt (pyLen content))) ∧
    (50000 < pyLen content →
      dictGet ((read_file ctx path enc).data.getD []) "content" =
        some (.vStr (pyTakeStr content 5000 ++ "\n\n... [内容过长，已截断] ...")) ∧
      dictGet ((read_file ctx path enc).data.getD []) "full_length" =
        some (.vInt (pyLen content))) := by
  have hrf : read_file ctx path enc = read_file_text content enc := by
    unfold read_file
    rw [hread]
    cases hm : ctx.mimeOf path with
    | none => rfl
    | some m => simp [hmime m hm]
  rw [hrf]
  unfold read_file_text
  by_cases hl : 50000 < pyLen content
  · rw [if_pos hl]
    refine ⟨rfl, fun hc => absurd hl (by omega), fun _ => ?_⟩
    constructor <;> simp [dictGet]
  · rw [if_neg hl]
    refine ⟨rfl, fun _ => ?_, fun hc => absurd hc hl⟩
    constructor <;> simp [dictGet]

/-- Witness for C5 at a 60,000-character file: truncated read with
`full_length` 60,000. -/
theorem c5_read_file_truncation_witness :
    (read_file ctx60 "big.txt" "utf-8").success = true ∧
    dictGet ((read_file ctx60 "big.txt" "utf-8").data.getD []) "full_length" =
      some (.vInt 60000) := by
  have hlen : pyLen (String.mk (List.replicate 60000 'a')) = 60000 := by
    show (List.replicate 60000 'a').length = 60000
    rw [List.length_replicate]
  have h := c5_read_file_truncation ctx60 "big.txt" "utf-8"
    (String.mk (List.replicate 60000 'a')) rfl
    (fun m hm => by simp [ctx60] at hm)
  refine ⟨h.1, ?_⟩
  have h3 := h.2.2 (by rw [hlen]; norm_num)
  rw [h3.2, hlen]
  norm_num

theorem mem_replaceForbidden (l : List Char) (c : Char)
    (hc : c ∈ replaceForbidden l) :
    forbiddenFilenameChars.contains c = false := by
  unfold replaceForbidden at hc
  rw [List.mem_map] at hc
  obtain ⟨x, hx, rfl⟩ := hc
  by_cases hf : forbiddenFilenameChars.contains x = true
  · rw [if_pos hf]; decide
  · rw [Bool.not_eq_true] at hf
    have hx2 : x ∉ forbiddenFilenameChars := by simpa using hf
    simp [hx2]

theorem mem_collapseWsGo (l : List Char) : ∀ (b : Bool) (c : Char),
    c ∈ collapseWsGo b l → c = '_' ∨ c ∈ l := by
  induction l with
  | nil => intro b c hc; simp [collapseWsGo] at hc
  | cons x xs ih =>
    intro b c hc
    unfold collapseWsGo at hc
    by_cases hx : pyIsSpace x = true
    · rw [if_pos hx, List.mem_append] at hc
      rcases hc with hc | hc
      · left
        cases b
        · simpa using hc
        · simp at hc
      · rcases ih true c hc with h | h
        · exact Or.inl h
        · exact Or.inr (List.mem_cons_of_mem x h)
    · rw [if_neg hx] at hc
      rcases List.mem_cons.mp hc with h | h
      · exact Or.inr (by simp [h])
      · rcases ih false c h with h2 | h2
        · exact Or.inl h2
        · exact Or.inr (List.mem_cons_of_mem x h2)

theorem stripDotUnderscore_subset (l : List Char) : stripDotUnderscore l ⊆ l := by
  intro c hc
  unfold stripDotUnderscore at hc
  rw [List.mem_reverse] at hc
  have h1 := (List.dropWhile_suffix _).sublist.subset hc
  rw [List.mem_reverse] at h1
  exact (List.dropWhile_suffix _).sublist.subset h1

theorem splitext_subset (l : List Char) :
    (splitext l).1 ⊆ l ∧ (splitext l).2 ⊆ l := by
  unfold splitext
  cases l.reverse.findIdx? (fun c => c == '.') with
  | none => exact ⟨fun c h => h, fun c h => by simp at h⟩
  | some r =>
    dsimp only
    by_cases hall : ((l.take (l.length - 1 - r)).all (fun c => c == '.')) = true
    · rw [if_pos hall]
      exact ⟨fun c h => h, fun c h => by simp at h⟩
    · rw [if_neg hall]
      exact ⟨List.take_subset _ _, List.drop_subset _ _⟩

theorem pySliceTo_subset {α : Type} (l : List α) (i : Int) :
    pySliceTo l i ⊆ l := by
  unfold pySliceTo
  by_cases h : 0 ≤ i
  · rw [if_pos h]; exact List.take_subset _ _
  · rw [if_neg h]; exact List.take_subset _ _

theorem clean_filename_no_forbidden (l : List Char) :
    ∀ c ∈ clean_filename l, forbiddenFilenameChars.contains c = false := by
  intro c hc
  have base : ∀ c2 ∈ stripDotUnderscore (collapseWs (replaceForbidden l)),
      forbiddenFilenameChars.contains c2 = false := by
    intro c2 hc2
    have h1 := stripDotUnderscore_subset _ hc2
    rcases mem_collapseWsGo _ false c2 h1 with h | h
    · subst h; decide
    · exact mem_replaceForbidden l c2 h
  simp only [clean_filename] at hc
  by_cases hlen :
      255 < (stripDotUnderscore (collapseWs (replaceForbidden l))).length
  · rw [if_pos hlen, List.mem_append] at hc
    rcases hc with hc | hc
    · exact base c ((splitext_subset _).1 (pySliceTo_subset _ _ hc))
    · exact base c ((splitext_subset _).2 hc)
  · rw [if_neg hlen] at hc
    exact base c hc

/-- C7: `_write_file` hands the workspace manager exactly
`clean_filename(path)` applied to the whole requested path (the result
depends on the write function only through its value there); the
returned `data.path` is that sanitised name; the sanitised name never
contains a forbidden character (in particular no `/` or `\`); and
`dir/file.txt` flattens to the single file name `dir_file.txt`. -/
theorem c7_write_file_flattens :
    (∀ (wm wm2 : String → String → Except String Bool)
       (path content enc : String),
      wm (String.mk (clean_filename path.data)) content =
        wm2 (String.mk (clean_filename path.data)) content →
      write_file wm path content enc = write_file wm2 path content enc) ∧
    (∀ (wm : String → String → Except String Bool) (path content enc : String),
      wm (String.mk (clean_filename path.data)) content = .ok true →
      dictGet ((write_file wm path content enc).data.getD []) "path" =
        some (.vStr (String.mk (clean_filename path.data)))) ∧
    (∀ (l : List Char) (c : Char), c ∈ clean_filename l →
      forbiddenFilenameChars.contains c = false) ∧
    String.mk (clean_filename "dir/file.txt".data) = "dir_file.txt" := by
  refine ⟨?_, ?_, ?_, ?_⟩
  · intro wm wm2 path content enc h
    unfold write_file
    dsimp only
    rw [h]
  · intro wm path content enc h
    unfold write_file
    dsimp only
    rw [h]
    simp [dictGet]
  · intro l c hc
    exact clean_filename_no_forbidden l c hc
  · decide

/-- Witness for C7: a successful write of `dir/file.txt` reports the
flattened path `dir_file.txt`. -/
theorem c7_write_file_flattens_witness :
    dictGet ((write_file wmAlwaysOk "dir/file.txt" "hello" "utf-8").data.getD [])
        "path" = some (.vStr "dir_file.txt") := by
  have h := c7_write_file_flattens.2.1 wmAlwaysOk "dir/file.txt" "hello" "utf-8"
    rfl
  rw [h, c7_write_file_flattens.2.2.2]

/-- C8 counterexample: with `max_conversation_history = 0`, a single
successful turn leaves 2 entries, although the claim's bound
`2 × max = 0` demands at most 0 — `history[-0:]` is the whole list in
Python, so the trim is a no-op. -/
theorem c8_history_counterexample :
    (history_turn_update 0 []
      { role := "user", content := "hi", timestamp := "t" }
      (some { role := "assistant", content := "ok", timestamp := "t" })).length
        = 2 ∧
    ¬((history_turn_update 0 []
      { role := "user", content := "hi", timestamp := "t" }
      (some { role := "assistant", content := "ok", timestamp := "t" })).length
        ≤ 2 * 0) := by
  decide

set_option maxRecDepth 8192 in
/-- C8 (amended: for `max_conversation_history ≥ 1`): each turn keeps at
most `2 × max` entries, keeping exactly the most recent `2 × max` in
their original order when the bound is exceeded; with `max = 10`,
after 25 successful turn pairs exactly the most recent 20 of the 50
appended entries remain, in order. -/
theorem c8_history_trimming :
    (∀ m : Int, 1 ≤ m → ∀ (h : List Msg) (u : Msg) (a : Option Msg),
      history_turn_update m h u a =
        (if (m * 2 : Int) < ((h ++ [u]) ++ a.toList).length then
          ((h ++ [u]) ++ a.toList).drop
            (((h ++ [u]) ++ a.toList).length - (m * 2).toNat)
         else (h ++ [u]) ++ a.toList) ∧
      (history_turn_update m h u a).length ≤ (m * 2).toNat) ∧
    run_turns 10 demoTurns = (allAppended demoTurns).drop 30 ∧
    (run_turns 10 demoTurns).length = 20 := by
  refine ⟨?_, by decide, by decide⟩
  intro m hm h u a
  set new := (h ++ [u]) ++ a.toList with hnew
  have hupdate : history_turn_update m h u a =
      if (m * 2 : Int) < new.length then pySliceFrom new (-(m * 2)) else new := by
    rfl
  by_cases hlt : (m * 2 : Int) < new.length
  · rw [hupdate, if_pos hlt, if_pos hlt]
    have hneg : ¬(0 ≤ -(m * 2)) := by omega
    have hmin : min (-(-(m * 2))).toNat new.length = (m * 2).toNat := by
      have h1 : (-(-(m * 2))) = m * 2 := by ring
      rw [h1]
      omega
    constructor
    · unfold pySliceFrom
      rw [if_neg hneg, hmin]
    · unfold pySliceFrom
      rw [if_neg hneg, hmin]
      rw [List.length_drop]
      omega
  · rw [hupdate, if_neg hlt, if_neg hlt]
    refine ⟨rfl, ?_⟩
    omega

/-- Witness for C8: one turn under the bound is kept as appended. -/
theorem c8_history_trimming_witness :
    history_turn_update 10 []
      { role := "user", content := "hi", timestamp := "t" } none =
      [{ role := "user", content := "hi", timestamp := "t" }] := by
  have h := (c8_history_trimming.1 10 (by norm_num) []
    { role := "user", content := "hi", timestamp := "t" } none).1
  rw [h]
  decide

set_option maxRecDepth 4096 in
/-- C6 counterexample: in simulation mode, `navigate` produces the title
`模拟页面 - <url>`, not the claimed literal pattern
`simulated page - <url>`; and the simulated `get_title` succeeds but its
data carries no `mode` marker at all. -/
theorem c6_simulation_counterexample :
    dictGet (((browser_execute_sim {} (some "navigate")
        (some "https://example.com") none none).1).data.getD []) "title" =
      some (.vStr "模拟页面 - https://example.com") ∧
    ¬(dictGet (((browser_execute_sim {} (some "navigate")
        (some "https://example.com") none none).1).data.getD []) "title" =
      some (.vStr "simulated page - https://example.com")) ∧
    ((browser_execute_sim
        ((browser_execute_sim {} (some "navigate")
          (some "https://example.com") none none).2)
        (some "get_title") none none none).1).success = true ∧
    dictGet (((browser_execute_sim
        ((browser_execute_sim {} (some "navigate")
          (some "https://example.com") none none).2)
        (some "get_title") none none none).1).data.getD []) "mode" = none := by
  decide

/-- C6 (amended): with no real driver, `navigate(url)` for a non-empty
`url` always succeeds with `mode = "simulation"` and the title
`模拟页面 - <url>` (the Chinese rendering of "simulated page"),
recording the url in the state; a falsy (`None` or empty-string) `url`
or `selector` instead yields the code's missing-parameter failure;
every further supported action whose required parameters are present
and non-empty succeeds, with `mode = "simulation"` in its data for all
actions except `get_title` and `get_url`, which succeed but omit the
marker. -/
theorem c6_simulation_mode (st : BrowserState) (url sel v : String)
    (hurl : url ≠ "") (hsel : sel ≠ "") :
    (((browser_execute_sim st (some "navigate") (some url) none none).1).success
        = true ∧
     dictGet (((browser_execute_sim st (some "navigate") (some url)
        none none).1).data.getD []) "mode" = some (.vStr "simulation") ∧
     dictGet (((browser_execute_sim st (some "navigate") (some url)
        none none).1).data.getD []) "title" =
          some (.vStr ("模拟页面 - " ++ url)) ∧
     (browser_execute_sim st (some "navigate") (some url) none none).2 =
       { current_url := some url, page_title := some ("模拟页面 - " ++ url),
         session_history := st.session_history ++ [url] }) ∧
    (∀ u2 : Option String, pyTruthyOptStr u2 = false →
      (browser_execute_sim st (some "navigate") u2 none none).1 =
        { success := false, message := "缺少URL参数"
          error := some "Missing URL parameter" }) ∧
    (∀ s2 : Option String, pyTruthyOptStr s2 = false →
      (browser_execute_sim st (some "click") (some url) s2 none).1 =
        { success := false, message := "缺少选择器参数"
          error := some "Missing selector parameter" }) ∧
    (∀ act ∈ (["navigate", "click", "fill", "submit", "extract", "screenshot",
               "back", "forward", "refresh", "find_element"] : List String),
      ((browser_execute_sim st (some act) (some url) (some sel)
          (some v)).1).success = true ∧
      dictGet (((browser_execute_sim st (some act) (some url) (some sel)
          (some v)).1).data.getD []) "mode" = some (.vStr "simulation")) ∧
    (∀ act ∈ (["get_title", "get_url"] : List String),
      ((browser_execute_sim st (some act) (some url) (some sel)
          (some v)).1).success = true) := by
  refine ⟨?_, ?_, ?_, ?_, ?_⟩
  · refine ⟨?_, ?_, ?_, ?_⟩ <;>
      simp [browser_execute_sim, supported_actions, dictGet, pyTruthyOptStr,
            hurl]
  · intro u2 h2
    cases u2 with
    | none => simp [browser_execute_sim, supported_actions, pyTruthyOptStr]
    | some s =>
      have hs : s = "" := by simpa [pyTruthyOptStr] using h2
      subst hs
      simp [browser_execute_sim, supported_actions, pyTruthyOptStr]
  · intro s2 h2
    cases s2 with
    | none => simp [browser_execute_sim, supported_actions, pyTruthyOptStr]
    | some s =>
      have hs : s = "" := by simpa [pyTruthyOptStr] using h2
      subst hs
      simp [browser_execute_sim, supported_actions, pyTruthyOptStr]
  · intro act hact
    fin_cases hact <;>
      exact ⟨by simp [browser_execute_sim, supported_actions, pyTruthyOptStr,
                      hurl, hsel],
             by simp [browser_execute_sim, supported_actions, dictGet,
                      pyTruthyOptStr, hurl, hsel]⟩
  · intro act hact
    fin_cases hact <;>
      simp [browser_execute_sim, supported_actions, pyTruthyOptStr]

/-- Witness for C6: a simulated click with a non-empty selector
succeeds. -/
theorem c6_simulation_mode_witness :
    ((browser_execute_sim {} (some "click") (some "https://example.com")
        (some "#btn") (some "v")).1).success = true :=
  ((c6_simulation_mode {} "https://example.com" "#btn" "v" (by decide)
      (by decide)).2.2.2.1 "click" (by simp)).1
